import Mathlib

/-!
Shallow embedding of `src/renamewheel/main.py` (the whole program: the
helpers `_parse_args` and `_analyse_wheel` and the driver `main`),
together with models of the Python library primitives the program calls
(`str.split`, `str.join`, `os.path.basename`, `os.path.dirname`,
`os.path.join`, `shutil.copyfile`) and of the external `auditwheel`
analyzer calls, which are kept abstract as oracle fields of an
environment record.

Strings are Lean `String`s (in this toolchain a `String` is a structure
wrapping a `List Char`, so all the string operations below reduce in the
kernel).  The filesystem is a map from path to optional byte content; the
program's observable behaviour is its outcome (a returned exit code, an
argparse `SystemExit`, or an uncaught Python exception), the lines it
printed to standard output, and the final filesystem.
-/

namespace Renamewheel

/-! ## Python string primitives -/

/-- Model of Python `s.split(sep)` for a one-character separator, on the
character list: keeps empty segments and never returns the empty list
(`"".split("-") == [""]`). -/
def pySplitL (sep : Char) : List Char → List (List Char)
  | [] => [[]]
  | c :: rest =>
    match pySplitL sep rest with
    | [] => [[]]
    | p :: ps => if c = sep then [] :: p :: ps else (c :: p) :: ps

/-- Model of Python `s.split(sep)` on `String`. -/
def pySplit (s : String) (sep : Char) : List String :=
  (pySplitL sep s.data).map String.mk

/-- Model of Python `sep.join(parts)`. -/
def pyJoin (sep : String) : List String → String
  | [] => ""
  | [x] => x
  | x :: y :: ys => x ++ sep ++ pyJoin sep (y :: ys)

/-- Model of the Python statement `parts[-1] = tag`: replace the last
element of the list.  On the empty list Python would raise `IndexError`;
that case is unreachable here because `pySplit` never returns `[]`, and
the model returns `[]` there. -/
def setLast : List String → String → List String
  | [], _ => []
  | [_], t => [t]
  | x :: y :: ys, t => x :: setLast (y :: ys) t

/-! ## Path primitives (`posixpath`) -/

/-- Model of `os.path.basename`: the part of the path after the last
`/`, i.e. the last component of splitting on `/`. -/
def basename (p : String) : String :=
  (pySplit p '/').getLastD ""

/-- Model of `os.path.dirname` on the character list: everything up to
the last `/`, with trailing slashes stripped unless the result consists
only of slashes. -/
def dirnameL (s : List Char) : List Char :=
  let head := (s.reverse.dropWhile (fun c => c ≠ '/')).reverse
  if head.all (fun c => c = '/') then head
  else (head.reverse.dropWhile (fun c => c = '/')).reverse

/-- Model of `os.path.dirname`. -/
def dirname (p : String) : String := String.mk (dirnameL p.data)

/-- Model of `os.path.join(a, b)` for two components: `b` absolute wins;
otherwise concatenate, inserting `/` unless `a` is empty or already ends
in `/`. -/
def os_path_join (a b : String) : String :=
  if b.data.head? = some '/' then b
  else if a = "" ∨ a.data.getLast? = some '/' then a ++ b
  else a ++ "/" ++ b

/-! ## The external analyzer and the filesystem environment -/

/-- Exceptions `auditwheel.wheeltools.get_wheel_architecture` can raise;
both are caught by `_analyse_wheel`. -/
inductive ArchException
  | wheelToolsError
  | nonPlatformWheel
deriving DecidableEq, Repr

/-- Exception `auditwheel.wheeltools.get_wheel_libc` can raise
(`WheelToolsError`); it is caught by `_analyse_wheel`. -/
inductive LibcException
  | wheelToolsError
deriving DecidableEq, Repr

/-- Exception `auditwheel.wheel_abi.analyze_wheel_abi` can raise
(`NonPlatformWheel`); caught by `_analyse_wheel` and turned into
error code 3. -/
inductive AbiException
  | nonPlatformWheel
deriving DecidableEq, Repr

/-- Python exceptions that `shutil.copyfile` can raise in this model and
that `main` does not catch. -/
inductive PyException
  | sameFileError
  | fileNotFoundError
deriving DecidableEq, Repr

/-- The ambient world of one invocation: the host platform string, the
filesystem predicates and contents, and the three external `auditwheel`
calls, kept abstract as oracles.  `analyzeWheelAbi` receives the libc and
architecture values (possibly `none` when their detection failed) and the
wheel path, mirroring `analyze_wheel_abi(libc, arch, Path(wheel_file),
frozenset(), True, True)` with the constant trailing arguments dropped. -/
structure Env where
  platform : String
  isfile : String → Bool
  isdir : String → Bool
  fs : String → Option (List Nat)
  getWheelArchitecture : String → Except ArchException String
  getWheelLibc : String → Except LibcException String
  analyzeWheelAbi : Option String → Option String → String → Except AbiException String

/-- Turn a caught `try/except` result into Python's `None`-or-value. -/
def degrade {e : Type} : Except e String → Option String
  | .ok a => some a
  | .error _ => none

/-- Model of `shutil.copyfile(src, dst)`.  Raises `SameFileError` when
source and destination are the same file (path equality stands in for
file identity here), `FileNotFoundError` when the source is missing or
the destination's directory does not exist (an empty dirname means the
current directory, which exists); otherwise writes the source's bytes at
the destination and returns the updated filesystem. -/
def copyfile (env : Env) (src dst : String) :
    Except PyException (String → Option (List Nat)) :=
  if env.isfile src = true ∧ src = dst then .error .sameFileError
  else if env.isfile src = false then .error .fileNotFoundError
  else if dirname dst ≠ "" ∧ env.isdir (dirname dst) = false then
    .error .fileNotFoundError
  else .ok (fun p => if p = dst then env.fs src else env.fs p)

/-! ## `_parse_args` -/

/-- Parsed command line: the required positional `WHEEL_FILE` and the
optional `-w`/`--working-dir` value (`none` when absent). -/
structure Args where
  WHEEL_FILE : String
  working_dir : Option String
deriving DecidableEq, Repr

/-- Model of `argparse` for the surface declared in `_parse_args`: a
single required positional and `-w`/`--working-dir` taking one value.
Any other option-like argument (such as `-v`, which `_parse_args` does
not declare), a missing positional, a missing `-w` value, or a surplus
positional makes `argparse` raise `SystemExit`, modelled as `.error ()`. -/
def parseArgsLoop : List String → Option String → Option String → Except Unit Args
  | [], pos, wd =>
    match pos with
    | some w => .ok ⟨w, wd⟩
    | none => .error ()
  | a :: rest, pos, wd =>
    if a = "-w" ∨ a = "--working-dir" then
      match rest with
      | v :: rest2 => parseArgsLoop rest2 pos (some v)
      | [] => .error ()
    else
      match a.data with
      | '-' :: _ :: _ => .error ()
      | _ =>
        match pos with
        | none => parseArgsLoop rest (some a) wd
        | some _ => .error ()

/-- Embedding of `_parse_args` applied to the argument vector (the part
of `sys.argv` after the program name). -/
def _parse_args (argv : List String) : Except Unit Args :=
  parseArgsLoop argv none none

/-! ## `_analyse_wheel` -/

/-- Embedding of `_analyse_wheel`: returns either an error code
(`Sum.inl`) or the overall policy name (`Sum.inr`), paired with the lines
it printed.  The `try/except` blocks around the architecture and libc
lookups catch every exception those calls can raise, so both degrade to
`None`; only `analyze_wheel_abi` raising `NonPlatformWheel` is terminal. -/
def _analyse_wheel (env : Env) (wheel_file : String) :
    (Sum Int String) × List String :=
  if env.isfile wheel_file = false then
    (.inl 2, ["cannot access " ++ wheel_file ++ ". No such file"])
  else
    let arch : Option String := degrade (env.getWheelArchitecture wheel_file)
    let libc : Option String := degrade (env.getWheelLibc wheel_file)
    match env.analyzeWheelAbi libc arch wheel_file with
    | .error _ => (.inl 3, ["This does not look like a platform wheel"])
    | .ok name => (.inr name, [])

/-! ## `main` -/

/-- Embedding of the statements
`parts = file_name.split("-"); parts[-1] = tag;
renamed_file_name = "-".join(parts) + ".whl"` from `main`. -/
def renamed_file_name (file_name tag : String) : String :=
  pyJoin "-" (setLast (pySplit file_name '-') tag) ++ ".whl"

/-- Embedding of the destination-path computation of `main`: the
renamed filename is joined onto the `-w` directory when one was given
and non-empty (`if args.working_dir:` is false both for an absent and
for an empty value), and onto the source file's own directory
otherwise. -/
def renamed_wheel_file (args : Args) (renamed : String) : String :=
  match args.working_dir with
  | some wd =>
    if wd ≠ "" then os_path_join wd renamed
    else os_path_join (dirname args.WHEEL_FILE) renamed
  | none => os_path_join (dirname args.WHEEL_FILE) renamed

/-- How one invocation of `main` terminates: an exit code returned by
`main`, the `SystemExit` `argparse` raises, or an uncaught Python
exception propagating out of `main`. -/
inductive MainOutcome
  | exited (code : Int)
  | argparseExit
  | uncaught (e : PyException)
deriving DecidableEq, Repr

/-- The observable result of one invocation: how it ended, the lines
printed to standard output, and the final filesystem. -/
structure RunResult where
  outcome : MainOutcome
  output : List String
  fs : String → Option (List Nat)

/-- Embedding of `main`: the platform gate, argument parsing, wheel
analysis, filename rewriting, destination resolution (note that
`if args.working_dir:` is false both for an absent and for an empty
`-w` value), the unconditional `Renaming` print, and the copy. -/
def main (env : Env) (argv : List String) : RunResult :=
  if env.platform ≠ "linux" then
    ⟨.exited 1, ["Error: This tool only supports Linux"], env.fs⟩
  else
    match _parse_args argv with
    | .error _ => ⟨.argparseExit, [], env.fs⟩
    | .ok args =>
      match _analyse_wheel env args.WHEEL_FILE with
      | (.inl code, out) => ⟨.exited code, out, env.fs⟩
      | (.inr tag, out) =>
        let file_name := basename args.WHEEL_FILE
        let dst := renamed_wheel_file args (renamed_file_name file_name tag)
        let out := out ++
          ["Renaming '" ++ args.WHEEL_FILE ++ "' to '" ++ dst ++ "'."]
        match copyfile env args.WHEEL_FILE dst with
        | .error e => ⟨.uncaught e, out, env.fs⟩
        | .ok fs2 => ⟨.exited 0, out, fs2⟩

/-! ## Concrete environments used to evaluate the program -/

/-- A wheel filename whose platform-tag field already matches the tag
the analyzer computes for it. -/
def wheelC1 : String := "simple_manylinux_demo-4.0-cp312-cp312-manylinux_2_5_x86_64.whl"

/-- Environment for running `main` on `wheelC1` in the current
directory: Linux host, the wheel exists with known bytes, no other path
exists, and the analyzer succeeds with tag `manylinux_2_5_x86_64`. -/
def envC1 : Env where
  platform := "linux"
  isfile := fun p => p == wheelC1
  isdir := fun _ => false
  fs := fun p => if p == wheelC1 then some [1, 2, 3] else none
  getWheelArchitecture := fun _ => .ok "x86_64"
  getWheelLibc := fun _ => .ok "glibc"
  analyzeWheelAbi := fun _ _ _ => .ok "manylinux_2_5_x86_64"

/-- Environment in which no path exists at all (so the wheel file is
missing); Linux host. -/
def envMissing : Env where
  platform := "linux"
  isfile := fun _ => false
  isdir := fun _ => false
  fs := fun _ => none
  getWheelArchitecture := fun _ => .error .wheelToolsError
  getWheelLibc := fun _ => .error .wheelToolsError
  analyzeWheelAbi := fun _ _ _ => .error .nonPlatformWheel

/-! ## C1 -/

/-- C1: at an invocation whose computed destination equals the source
path (tag already correct, same directory), the program does not exit
with code 0 doing nothing: it prints a `Renaming` message and then
crashes with an uncaught `SameFileError` from `copyfile(src, src)`.
There is no no-op branch and no
`"Name and location haven't changed, doing nothing."` message in the
code. -/
theorem c1_crash_on_noop_input :
    (main envC1 [wheelC1]).outcome = .uncaught .sameFileError ∧
    (main envC1 [wheelC1]).output =
      ["Renaming 'simple_manylinux_demo-4.0-cp312-cp312-manylinux_2_5_x86_64.whl' to 'simple_manylinux_demo-4.0-cp312-cp312-manylinux_2_5_x86_64.whl'."] ∧
    (main envC1 [wheelC1]).outcome ≠ .exited 0 := by
  refine ⟨by decide, by decide, by decide⟩

/-! ## C2 -/

/-- Environment for C2: the wheel exists in the current directory, the
analyzer succeeds, but the directory `die` passed to `-w` does not
exist. -/
def envC2 : Env where
  platform := "linux"
  isfile := fun p => p == wheelC1
  isdir := fun _ => false
  fs := fun p => if p == wheelC1 then some [1, 2, 3] else none
  getWheelArchitecture := fun _ => .ok "x86_64"
  getWheelLibc := fun _ => .ok "glibc"
  analyzeWheelAbi := fun _ _ _ => .ok "manylinux_2_5_x86_64"

/-- C2: when `-w` names a non-existent directory the program does not
fail with exit code 4 and does not print
`"Output directory 'die' does not exist."`: it prints the `Renaming`
message and crashes with an uncaught `FileNotFoundError` from
`copyfile`; no directory-existence check exists in the code. -/
theorem c2_crash_on_missing_output_dir :
    (main envC2 ["-w", "die", wheelC1]).outcome = .uncaught .fileNotFoundError ∧
    (main envC2 ["-w", "die", wheelC1]).outcome ≠ .exited 4 ∧
    (main envC2 ["-w", "die", wheelC1]).output =
      ["Renaming 'simple_manylinux_demo-4.0-cp312-cp312-manylinux_2_5_x86_64.whl' to 'die/simple_manylinux_demo-4.0-cp312-cp312-manylinux_2_5_x86_64.whl'."] := by
  refine ⟨by decide, by decide, by decide⟩

/-! ## C3 -/

/-- C3: the program is not silent without `-v` — an invocation on a
missing wheel file with no `-v` flag prints
`cannot access some-wheel. No such file` — and `-v` is not an accepted
flag at all: passing it makes argument parsing raise `SystemExit`
instead of returning any exit code, so the exit code is not independent
of the flag. -/
theorem c3_not_silent_without_verbose :
    (main envMissing ["some-wheel"]).output =
      ["cannot access some-wheel. No such file"] ∧
    (main envMissing ["some-wheel"]).output ≠ [] ∧
    (main envMissing ["some-wheel"]).outcome = .exited 2 ∧
    (main envMissing ["-v", "some-wheel"]).outcome = .argparseExit := by
  refine ⟨by decide, by decide, by decide, by decide⟩

/-! ## Codec lemmas -/

/-- `str.split` never returns an empty list of parts. -/
theorem pySplitL_ne_nil (sep : Char) (l : List Char) : pySplitL sep l ≠ [] := by
  cases l with
  | nil => simp [pySplitL]
  | cons c rest =>
    unfold pySplitL
    cases h : pySplitL sep rest with
    | nil => simp
    | cons p ps => by_cases hc : c = sep <;> simp [hc]

/-- `pySplit` never returns an empty list of parts. -/
theorem pySplit_ne_nil (s : String) (sep : Char) : pySplit s sep ≠ [] := by
  simp [pySplit, pySplitL_ne_nil]

/-- On a non-empty list, `parts[-1] = t` keeps every earlier element and
replaces the last. -/
theorem setLast_eq (l : List String) (t : String) (h : l ≠ []) :
    setLast l t = l.dropLast ++ [t] := by
  induction l with
  | nil => exact absurd rfl h
  | cons x xs ih =>
    cases xs with
    | nil => simp [setLast]
    | cons y ys => simp [setLast, ih (List.cons_ne_nil y ys)]

/-- Splitting a list that does not contain the separator yields the
single part equal to the whole list. -/
theorem pySplitL_of_not_mem (sep : Char) (l : List Char) (h : sep ∉ l) :
    pySplitL sep l = [l] := by
  induction l with
  | nil => rfl
  | cons c rest ih =>
    have h1 : ¬c = sep := fun e => h (by simp [e])
    have h2 : sep ∉ rest := fun m => h (List.mem_cons_of_mem _ m)
    unfold pySplitL
    rw [ih h2]
    simp [h1]

/-- Rebuilding a `String` from its character list is the identity. -/
theorem String.mk_data (s : String) : String.mk s.data = s := by
  cases s
  rfl

/-! ## C5 -/

/-- C5: for any filename `F` with at least one `-`-delimited field and
any tag `T`, the rewritten filename ends in the fixed `.whl` extension,
the rewrite replaces exactly the final field with `T`, keeping all
non-final fields of `F`, and the result is the `-`-join of the non-final
fields of `F` followed by `T`, with `.whl` appended. -/
theorem c5_rewrite_replaces_final_field (F T : String)
    (_h : 1 ≤ (pySplit F '-').length) :
    (∃ stem, renamed_file_name F T = stem ++ ".whl") ∧
    setLast (pySplit F '-') T = (pySplit F '-').dropLast ++ [T] ∧
    renamed_file_name F T =
      pyJoin "-" ((pySplit F '-').dropLast ++ [T]) ++ ".whl" := by
  have hs := setLast_eq (pySplit F '-') T (pySplit_ne_nil F '-')
  refine ⟨⟨pyJoin "-" (setLast (pySplit F '-') T), rfl⟩, hs, ?_⟩
  unfold renamed_file_name
  rw [hs]

/-- Witness for C5 at a concrete filename and tag. -/
theorem c5_witness :
    1 ≤ (pySplit "demo-1.0-cp39-cp39-linux_x86_64.whl" '-').length ∧
    ((∃ stem, renamed_file_name "demo-1.0-cp39-cp39-linux_x86_64.whl"
        "manylinux_1_x86_64" = stem ++ ".whl") ∧
      setLast (pySplit "demo-1.0-cp39-cp39-linux_x86_64.whl" '-')
          "manylinux_1_x86_64" =
        (pySplit "demo-1.0-cp39-cp39-linux_x86_64.whl" '-').dropLast ++
          ["manylinux_1_x86_64"] ∧
      renamed_file_name "demo-1.0-cp39-cp39-linux_x86_64.whl"
          "manylinux_1_x86_64" =
        pyJoin "-" ((pySplit "demo-1.0-cp39-cp39-linux_x86_64.whl" '-').dropLast ++
          ["manylinux_1_x86_64"]) ++ ".whl") :=
  ⟨by decide, c5_rewrite_replaces_final_field "demo-1.0-cp39-cp39-linux_x86_64.whl"
    "manylinux_1_x86_64" (by decide)⟩

/-! ## C9 -/

/-- C9: for any filename with no `-` at all, the rewrite degenerates to
replacing the entire stem: the result is exactly the tag followed by
`.whl`.  No error is possible — `renamed_file_name` is total. -/
theorem c9_no_dash_degenerates (F T : String) (h : '-' ∉ F.data) :
    renamed_file_name F T = T ++ ".whl" := by
  have hsp : pySplit F '-' = [F] := by
    simp [pySplit, pySplitL_of_not_mem '-' F.data h, String.mk_data]
  unfold renamed_file_name
  rw [hsp]
  rfl

/-- Witness for C9 at a concrete dash-free filename. -/
theorem c9_witness :
    '-' ∉ "wheelfile.zip".data ∧
    renamed_file_name "wheelfile.zip" "manylinux_1_x86_64" =
      "manylinux_1_x86_64" ++ ".whl" :=
  ⟨by decide, c9_no_dash_degenerates "wheelfile.zip" "manylinux_1_x86_64" (by decide)⟩

/-! ## C4 -/

/-- C4: `_analyse_wheel` returns error code 2 exactly when the path is
not an existing regular file; on an existing file, failures of the
architecture and libc lookups are not terminal — the analysis always
proceeds to `analyze_wheel_abi` on the degraded (`none`) values — and
the result is error code 3 exactly when that final call fails, and the
returned policy name as the tag when it succeeds. -/
theorem c4_analyse_wheel_error_handling (env : Env) (wf : String) :
    (env.isfile wf = false → (_analyse_wheel env wf).1 = Sum.inl 2) ∧
    (env.isfile wf = true →
      (∀ e, env.analyzeWheelAbi (degrade (env.getWheelLibc wf))
          (degrade (env.getWheelArchitecture wf)) wf = .error e →
          (_analyse_wheel env wf).1 = Sum.inl 3) ∧
      (∀ name, env.analyzeWheelAbi (degrade (env.getWheelLibc wf))
          (degrade (env.getWheelArchitecture wf)) wf = .ok name →
          (_analyse_wheel env wf).1 = Sum.inr name)) := by
  refine ⟨fun h => by simp [_analyse_wheel, h], fun h => ⟨?_, ?_⟩⟩
  · intro e he
    simp [_analyse_wheel, h, he]
  · intro name hn
    simp [_analyse_wheel, h, hn]

/-- Environment for the C4 witness: the file exists, both the
architecture and the libc lookups raise (and so degrade to `none`), yet
the final policy computation succeeds. -/
def envC4 : Env where
  platform := "linux"
  isfile := fun p => p == "w.whl"
  isdir := fun _ => false
  fs := fun p => if p == "w.whl" then some [0] else none
  getWheelArchitecture := fun _ => .error .nonPlatformWheel
  getWheelLibc := fun _ => .error .wheelToolsError
  analyzeWheelAbi := fun _ _ _ => .ok "manylinux_2_28_x86_64"

/-- Witness for C4: with both lookups failing, analysis still reaches
the final call and returns its tag. -/
theorem c4_witness :
    envC4.isfile "w.whl" = true ∧
    envC4.analyzeWheelAbi (degrade (envC4.getWheelLibc "w.whl"))
      (degrade (envC4.getWheelArchitecture "w.whl")) "w.whl" =
        .ok "manylinux_2_28_x86_64" ∧
    (_analyse_wheel envC4 "w.whl").1 = Sum.inr "manylinux_2_28_x86_64" :=
  ⟨by decide, rfl,
    ((c4_analyse_wheel_error_handling envC4 "w.whl").2 (by decide)).2
      "manylinux_2_28_x86_64" rfl⟩

/-! ## C10 -/

/-- C10: on a non-Linux host, `main` returns exit code 1 for every
argument vector — the platform gate runs before `_parse_args`, so even
an argument vector that would fail parsing still yields exit code 1 —
prints the platform message, and leaves the filesystem unchanged. -/
theorem c10_non_linux_exits_one (env : Env) (argv : List String)
    (h : env.platform ≠ "linux") :
    (main env argv).outcome = .exited 1 ∧
    (main env argv).output = ["Error: This tool only supports Linux"] ∧
    (main env argv).fs = env.fs := by
  simp [main, h]

/-- Environment on a macOS host; nothing exists on disk. -/
def envDarwin : Env where
  platform := "darwin"
  isfile := fun _ => false
  isdir := fun _ => false
  fs := fun _ => none
  getWheelArchitecture := fun _ => .error .wheelToolsError
  getWheelLibc := fun _ => .error .wheelToolsError
  analyzeWheelAbi := fun _ _ _ => .error .nonPlatformWheel

/-- Witness for C10: the empty argument vector (missing positional, a
parse error on Linux) still exits with code 1 on a non-Linux host. -/
theorem c10_witness :
    envDarwin.platform ≠ "linux" ∧
    _parse_args ([] : List String) = .error () ∧
    ((main envDarwin []).outcome = .exited 1 ∧
      (main envDarwin []).output = ["Error: This tool only supports Linux"] ∧
      (main envDarwin []).fs = envDarwin.fs) :=
  ⟨by decide, rfl, c10_non_linux_exits_one envDarwin [] (by decide)⟩

/-! ## C6 -/

/-- Environment for C6: the wheel lives in directory `w`, the distinct
destination directory `d` exists, and the analyzer returns a tag that
changes the filename. -/
def envC6 : Env where
  platform := "linux"
  isfile := fun p => p == "w/demo-1.0-cp39-cp39-linux_x86_64.whl"
  isdir := fun p => p == "d"
  fs := fun p => if p == "w/demo-1.0-cp39-cp39-linux_x86_64.whl" then some [7] else none
  getWheelArchitecture := fun _ => .ok "x86_64"
  getWheelLibc := fun _ => .ok "glibc"
  analyzeWheelAbi := fun _ _ _ => .ok "manylinux_1_x86_64"

/-- C6: on a successful transfer into a different directory (source
directory `w`, destination directory `d`), the program still prints a
`Renaming` message, not a `Copying` one: the success message is a single
unconditional `Renaming` print, never selected by whether the directory
changed. -/
theorem c6_always_says_renaming :
    (main envC6 ["-w", "d", "w/demo-1.0-cp39-cp39-linux_x86_64.whl"]).outcome =
      .exited 0 ∧
    dirname "w/demo-1.0-cp39-cp39-linux_x86_64.whl" ≠ "d" ∧
    (main envC6 ["-w", "d", "w/demo-1.0-cp39-cp39-linux_x86_64.whl"]).output =
      ["Renaming 'w/demo-1.0-cp39-cp39-linux_x86_64.whl' to 'd/demo-1.0-cp39-cp39-manylinux_1_x86_64.whl'."] ∧
    (main envC6 ["-w", "d", "w/demo-1.0-cp39-cp39-linux_x86_64.whl"]).output ≠
      ["Copying 'w/demo-1.0-cp39-cp39-linux_x86_64.whl' to 'd/demo-1.0-cp39-cp39-manylinux_1_x86_64.whl'."] := by
  refine ⟨by decide, by decide, by decide, by decide⟩

/-! ## C7 -/

/-- The mixed-case, dotted wheel filename of the rename scenario. -/
def wheelC7 : String := "Simple.Manylinux.Demo-4.0-cp313-cp313-manylinux_2_5_x86_64.whl"

/-- Environment for C7: `wheelC7` exists in the current directory and
the analyzer returns `manylinux_2_5_x86_64`. -/
def envC7 : Env where
  platform := "linux"
  isfile := fun p => p == wheelC7
  isdir := fun _ => false
  fs := fun p => if p == wheelC7 then some [9] else none
  getWheelArchitecture := fun _ => .ok "x86_64"
  getWheelLibc := fun _ => .ok "glibc"
  analyzeWheelAbi := fun _ _ _ => .ok "manylinux_2_5_x86_64"

/-- C7: the code performs no distribution-name normalization, so for
`Simple.Manylinux.Demo-4.0-cp313-cp313-manylinux_2_5_x86_64.whl` with
tag `manylinux_2_5_x86_64` the rewritten name equals the source name —
not the lower-cased, underscore-normalized
`simple_manylinux_demo-...` the scenario expects — and the run then
crashes with an uncaught `SameFileError` instead of exiting 0; no file
appears at the expected normalized destination. -/
theorem c7_no_name_normalization :
    renamed_file_name wheelC7 "manylinux_2_5_x86_64" = wheelC7 ∧
    renamed_file_name wheelC7 "manylinux_2_5_x86_64" ≠
      "simple_manylinux_demo-4.0-cp313-cp313-manylinux_2_5_x86_64.whl" ∧
    (main envC7 [wheelC7]).outcome = .uncaught .sameFileError ∧
    (main envC7 [wheelC7]).fs
      "simple_manylinux_demo-4.0-cp313-cp313-manylinux_2_5_x86_64.whl" = none := by
  refine ⟨by decide, by decide, by decide, by decide⟩

/-! ## C8 -/

/-- A successful `copyfile` implies the source and destination differ,
and the updated filesystem changes at most the destination. -/
theorem copyfile_ok_frame (env : Env) (src dst : String)
    (fs2 : String → Option (List Nat))
    (h : copyfile env src dst = .ok fs2) :
    src ≠ dst ∧ fs2 = fun p => if p = dst then env.fs src else env.fs p := by
  unfold copyfile at h
  split at h
  · exact absurd h (by simp)
  next h1 =>
    split at h
    · exact absurd h (by simp)
    next h2 =>
      split at h
      · exact absurd h (by simp)
      next h3 =>
        refine ⟨fun e => h1 ⟨?_, e⟩, (Except.ok.inj h).symm⟩
        cases hb : env.isfile src with
        | false => exact absurd hb h2
        | true => rfl

/-- An error code returned by `_analyse_wheel` is 2 or 3. -/
theorem _analyse_wheel_inl (env : Env) (wf : String) (c : Int)
    (h : (_analyse_wheel env wf).1 = Sum.inl c) : c = 2 ∨ c = 3 := by
  unfold _analyse_wheel at h
  split at h
  · simp at h
    omega
  · rcases hAbi : env.analyzeWheelAbi (degrade (env.getWheelLibc wf))
        (degrade (env.getWheelArchitecture wf)) wf with e | name
    · simp [hAbi] at h
      omega
    · simp [hAbi] at h

/-- C8: every invocation that returns exit code 0 performed exactly one
copy: there is a single destination path, distinct from the source wheel
path, outside of which the filesystem is untouched — in particular the
source file's content is exactly what it was before the run, and the
source is never deleted. -/
theorem c8_copy_touches_only_destination (env : Env) (argv : List String)
    (args : Args) (hp : _parse_args argv = .ok args)
    (h0 : (main env argv).outcome = .exited 0) :
    (main env argv).fs args.WHEEL_FILE = env.fs args.WHEEL_FILE ∧
    ∃ dst, dst ≠ args.WHEEL_FILE ∧
      ∀ p, p ≠ dst → (main env argv).fs p = env.fs p := by
  unfold main at h0 ⊢
  by_cases hpl : env.platform ≠ "linux"
  · simp [hpl] at h0
  rw [if_neg hpl] at h0 ⊢
  rw [hp] at h0 ⊢
  dsimp only at h0 ⊢
  rcases hA : _analyse_wheel env args.WHEEL_FILE with ⟨res, out⟩
  cases res with
  | inl code =>
    rw [hA] at h0
    dsimp only at h0
    have hc0 : code = 0 := by
      injection h0
    rcases _analyse_wheel_inl env args.WHEEL_FILE code (by rw [hA]) with h2 | h3 <;>
      omega
  | inr tag =>
    rw [hA] at h0
    dsimp only at h0
    rcases hC : copyfile env args.WHEEL_FILE
        (renamed_wheel_file args
          (renamed_file_name (basename args.WHEEL_FILE) tag)) with e | fs2
    · rw [hC] at h0
      simp at h0
    · obtain ⟨hne, hfs⟩ := copyfile_ok_frame _ _ _ _ hC
      subst hfs
      dsimp only
      rw [hC]
      exact ⟨by simp [hne], _, Ne.symm hne, fun p hpne => by simp [hpne]⟩

/-- Witness for C8: the successful cross-directory copy of `envC6`
leaves the source wheel's content unchanged and touches at most one
destination path. -/
theorem c8_witness :
    _parse_args ["-w", "d", "w/demo-1.0-cp39-cp39-linux_x86_64.whl"] =
      .ok ⟨"w/demo-1.0-cp39-cp39-linux_x86_64.whl", some "d"⟩ ∧
    (main envC6 ["-w", "d", "w/demo-1.0-cp39-cp39-linux_x86_64.whl"]).outcome =
      .exited 0 ∧
    ((main envC6 ["-w", "d", "w/demo-1.0-cp39-cp39-linux_x86_64.whl"]).fs
        "w/demo-1.0-cp39-cp39-linux_x86_64.whl" =
      envC6.fs "w/demo-1.0-cp39-cp39-linux_x86_64.whl" ∧
      ∃ dst, dst ≠ "w/demo-1.0-cp39-cp39-linux_x86_64.whl" ∧
        ∀ p, p ≠ dst →
          (main envC6 ["-w", "d", "w/demo-1.0-cp39-cp39-linux_x86_64.whl"]).fs p =
            envC6.fs p) :=
  ⟨rfl, by decide,
    c8_copy_touches_only_destination envC6
      ["-w", "d", "w/demo-1.0-cp39-cp39-linux_x86_64.whl"]
      ⟨"w/demo-1.0-cp39-cp39-linux_x86_64.whl", some "d"⟩ rfl (by decide)⟩

end Renamewheel
